import Mathlib

/-!
Verification of the classification core of the `kokos` repository
(`TextAnalyst.py`, with the HTTP boundary in `nApi.py`).

The embedding translates the Python source into Lean:

* spaCy's per-token attributes (`token.text`, `token.lemma_`, `token.is_stop`,
  `token.is_punct`) become an explicit record `SpacyToken`; the spaCy pipeline
  itself (`self.nlp`) is an external library and is passed as a parameter
  `nlp : String → List SpacyToken`.
* nltk's `word_tokenize` is likewise an external library, passed as a
  parameter `wt : String → List String`.
* Python's `str.isnumeric` / `str.isalnum` / `str.lower` builtins are modelled
  for the ASCII and Cyrillic ranges that the program's data lives in.
* sklearn's `TfidfVectorizer` is modelled by its documented behaviour: the
  analyzer lowercases and extracts the maximal alphanumeric runs of length at
  least two (the default token_pattern `\w\w+`), the fitted state is the
  vocabulary of distinct tokens of the fit documents, and the transform of a
  document is the vector of per-token counts weighted by the positive
  idf weight of each vocabulary token.  The idf weights are kept as a
  parameter `idf : String → ℚ`; sklearn's smoothed idf values
  `log((1+N)/(1+df))+1` are always ≥ 1, so theorems that need them assume
  only positivity.  The L2 normalisation that `TfidfVectorizer` applies is
  scale-invariant under cosine similarity and therefore cancels; cosine
  similarities are represented exactly by the pair
  (dot product, product of the squared norms) — see `SimVal` and `simGT`.
-/

/-! ## Python string builtins (ASCII and Cyrillic ranges) -/

/-- Cyrillic letter (А..я contiguous block, plus ё/Ё). -/
def isCyrillicLetter (c : Char) : Bool :=
  ('А' ≤ c && c ≤ 'я') || c = 'ё' || c = 'Ё'

/-- Model of Python `str.isnumeric` on the data handled by the program:
non-empty and all decimal digits. -/
def pyIsNumeric (s : String) : Bool :=
  !s.isEmpty && s.toList.all Char.isDigit

/-- Characters Python `str.isalnum` accepts, restricted to ASCII and
Cyrillic. -/
def pyIsAlnumChar (c : Char) : Bool :=
  c.isAlphanum || isCyrillicLetter c

/-- Model of Python `str.isalnum` on the data handled by the program. -/
def pyIsAlnum (s : String) : Bool :=
  !s.isEmpty && s.toList.all pyIsAlnumChar

/-- Model of Python `str.lower` on one character (ASCII and Cyrillic). -/
def ruLowerChar (c : Char) : Char :=
  if c.isUpper then c.toLower
  else if 'А' ≤ c && c ≤ 'Я' then Char.ofNat (c.toNat + 32)
  else if c = 'Ё' then 'ё'
  else c

/-- Model of Python `str.lower` (ASCII and Cyrillic). -/
def ruLower (s : String) : String :=
  String.mk (s.data.map ruLowerChar)

/-- Model of Python `str.strip`: drop leading and trailing whitespace. -/
def pyStrip (s : String) : String :=
  String.mk (((s.data.dropWhile Char.isWhitespace).reverse.dropWhile
    Char.isWhitespace).reverse)

/-- Python `' '.join`. -/
def joinSpace : List String → String
  | [] => ""
  | [s] => s
  | s :: rest => s ++ " " ++ joinSpace rest

/-- Maximal runs of characters satisfying `p` (`acc` holds the current
run, reversed). -/
def charRuns (p : Char → Bool) : List Char → List Char → List String
  | acc, [] => if acc.isEmpty then [] else [String.mk acc.reverse]
  | acc, c :: cs =>
    if p c then charRuns p (c :: acc) cs
    else if acc.isEmpty then charRuns p [] cs
    else String.mk acc.reverse :: charRuns p [] cs

/-! ## spaCy tokens and `TextAnalyst.clean_text` -/

/-- One spaCy token, restricted to the runtime attributes `clean_text`
reads: surface form `text`, lemma `lemma_`, stop-word flag, punctuation
flag. -/
structure SpacyToken where
  text : String
  lemma_ : String
  is_stop : Bool
  is_punct : Bool
deriving DecidableEq

/-- The hard-coded `exclusion_list` of `clean_text`. -/
def exclusion_list : List String := ["nan"]

/-- The discard condition of the `clean_text` loop, in source order:
`token.is_stop or token.is_punct or token.text.isnumeric() or
(token.text.isalnum() == False) or token.text in exclusion_list`. -/
def discardToken (t : SpacyToken) : Bool :=
  t.is_stop || t.is_punct || pyIsNumeric t.text || !pyIsAlnum t.text ||
    exclusion_list.contains t.text

/-- The token loop of `clean_text`: skip discarded tokens, keep
`str(token.lemma_.lower().strip())` for the rest. -/
def cleanLoop : List SpacyToken → List String
  | [] => []
  | t :: ts =>
    if discardToken t then cleanLoop ts
    else pyStrip (ruLower t.lemma_) :: cleanLoop ts

/-- `TextAnalyst.clean_text`: run the nlp pipeline, filter and lemmatize the
tokens, and join with single spaces.  The `except` branch of the source
returns `""` on an nlp failure; the nlp parameter is total here, so that
branch does not arise. -/
def clean_text (nlp : String → List SpacyToken) (doc : String) : String :=
  joinSpace (cleanLoop (nlp doc))

/-! ## `TextAnalyst.tokenize_text` -/

/-- `TextAnalyst.tokenize_text`: a falsy input (`None` or `""`) raises
`ValueError`, which the method's own handler turns into `None`; otherwise
the nltk tokens are joined with single spaces. -/
def tokenize_text (wt : String → List String) : Option String → Option String
  | none => none
  | some s => if s.isEmpty then none else some (joinSpace (wt s))

/-! ## Taxonomy and `TextAnalyst.prepare_data` -/

/-- The category → theme → phrases mapping of the loaded JSON, as an ordered
association list (Python dicts preserve insertion order, and
`self.categories = list(self.data.keys())`). -/
abbrev Taxonomy := List (String × List (String × List String))

/-- All phrases of a theme list, in order. -/
def themesPhrases : List (String × List String) → List String
  | [] => []
  | (_, ps) :: ts => ps ++ themesPhrases ts

/-- All phrases of the taxonomy in (category, theme, phrase) iteration
order. -/
def taxonomyPhrases : Taxonomy → List String
  | [] => []
  | (_, themes) :: rest => themesPhrases themes ++ taxonomyPhrases rest

/-- Inner loops of `prepare_data`: one document per phrase, each phrase
word-tokenized and re-joined with single spaces. -/
def prepareThemes (wt : String → List String) : List (String × List String) → List String
  | [] => []
  | (_, phrases) :: rest =>
    phrases.map (fun p => joinSpace (wt p)) ++ prepareThemes wt rest

/-- `TextAnalyst.prepare_data`: iterate the categories and themes in
insertion order, appending one tokenized document per phrase. -/
def prepare_data (wt : String → List String) : Taxonomy → List String
  | [] => []
  | (_, themes) :: rest => prepareThemes wt themes ++ prepare_data wt rest

/-! ## The fitted vector space model -/

/-- sklearn's default analyzer: lowercase, then the maximal runs of word
characters, keeping only runs of length at least two
(token_pattern `\w\w+`). -/
def isWordChar (c : Char) : Bool :=
  pyIsAlnumChar c || c = '_'

/-- The token stream sklearn's `TfidfVectorizer` extracts from a raw
document: lowercase, then the maximal word-character runs of length at
least two. -/
def sklearnTokens (s : String) : List String :=
  (charRuns isWordChar [] (ruLower s).data).filter (fun t => 2 ≤ t.length)

/-- The vocabulary observed by `fit_transform`: the distinct analyzer
tokens of the fit documents (sklearn sorts its vocabulary; the order is
irrelevant to every dot product below, so distinctness is all we keep). -/
def buildVocabulary (docs : List String) : List String :=
  ((docs.map sklearnTokens).flatten).dedup

/-- Unnormalised tf-idf dot product of two analyzed documents over the
fitted vocabulary: tokens outside the vocabulary contribute nothing, and
each idf weight enters once per side, hence squared. -/
def docDot (vocab : List String) (idf : String → ℚ) (u v : List String) : ℚ :=
  (vocab.map (fun t => (u.count t : ℚ) * (v.count t : ℚ) * idf t ^ 2)).sum

/-- Exact representation of one cosine similarity
`dot / sqrt(nrm2)`: the dot product together with the product of the two
squared norms.  The dot products of tf-idf vectors are non-negative, which
makes the comparison `simGT` below exact. -/
structure SimVal where
  dot : ℚ
  nrm2 : ℚ
deriving DecidableEq

/-- The cosine similarity of the (tf·idf)-weighted vectors of the two
analyzed documents, as a `SimVal`.  sklearn's L2 normalisation of each
vector cancels in the cosine, so the unnormalised vectors give the same
value. -/
def simOf (vocab : List String) (idf : String → ℚ) (u v : List String) : SimVal :=
  ⟨docDot vocab idf u v, docDot vocab idf u u * docDot vocab idf v v⟩

/-- Exact decision of `value a > value b` for cosine similarities with
non-negative dot products, where `value ⟨d, n⟩ = d / sqrt n` and a zero
squared-norm product means a zero vector was involved, for which sklearn's
`cosine_similarity` yields 0. -/
def simGT (a b : SimVal) : Bool :=
  if a.dot ≤ 0 ∨ a.nrm2 ≤ 0 then false
  else if b.dot ≤ 0 ∨ b.nrm2 ≤ 0 then true
  else decide (b.dot ^ 2 * a.nrm2 < a.dot ^ 2 * b.nrm2)

/-! ## `TextAnalyst.train_vectorizer` -/

/-- The message `train_vectorizer` logs when the document list is falsy. -/
def trainErrEmpty : String :=
  "Произошла ошибка при обучении векторизатора: Список униграмм пуст."

/-- The message logged when sklearn raises on an empty extracted
vocabulary. -/
def trainErrVocab : String :=
  "Произошла ошибка при обучении векторизатора: empty vocabulary"

/-- Result of `train_vectorizer`: the vectorizer is either fitted (with its
vocabulary) or left un-fit, and at most one error line is written to the
log.  The method itself always returns normally — its `except` clause
swallows every exception, including the `ValueError` it raises itself. -/
structure TrainOutcome where
  fitted : Option (List String)
  logged : Option String
deriving DecidableEq

/-- `TextAnalyst.train_vectorizer`.  The argument is `prepare_data`'s
result, which is `None` when preparation failed; `if not documents` is true
for both `None` and `[]`. -/
def train_vectorizer : Option (List String) → TrainOutcome
  | none => ⟨none, some trainErrEmpty⟩
  | some [] => ⟨none, some trainErrEmpty⟩
  | some (d :: ds) =>
    if buildVocabulary (d :: ds) = [] then ⟨none, some trainErrVocab⟩
    else ⟨some (buildVocabulary (d :: ds)), none⟩

/-! ## `TextAnalyst.get_text_theme` -/

/-- Result dictionary of `get_text_theme`: the success shape
`{"category": ..., "theme": ...}` or the error shape `{"error": ...}`. -/
inductive ClassifyResult where
  | ok (category theme : String)
  | err (msg : String)
deriving DecidableEq

/-- The error message of `get_text_theme`'s `except` branch. -/
def classifyErrMsg : String := "Произошла ошибка при классификации текста."

/-- The value `get_text_theme` passes to `self.vectorizer.transform`:
`tokenize_text(clean_text(input_text))`. -/
def transformArgOf (nlp : String → List SpacyToken) (wt : String → List String)
    (input : String) : Option String :=
  tokenize_text wt (some (clean_text nlp input))

/-- Loop state of the theme scan: best similarity so far (initially the
integer 0 = `SimVal ⟨0, 1⟩`) and the selected pair (initially empty
strings). -/
structure BestState where
  best : SimVal
  category : String
  theme : String
deriving DecidableEq

/-- The initial `max_category_similarity = 0`. -/
def initSim : SimVal := ⟨0, 1⟩

/-- The taxonomy flattened to the (category, theme, phrases) triples in the
iteration order of the two nested loops of `get_text_theme`. -/
def taxonomyPairs : Taxonomy → List (String × String × List String)
  | [] => []
  | (c, themes) :: rest =>
    themes.map (fun th => (c, th.1, th.2)) ++ taxonomyPairs rest

/-- `category_text = ' '.join(category_phrases)`. -/
def themeText (phrases : List String) : String :=
  joinSpace phrases

/-- The analyzer tokens of the raw phrase concatenation: the token stream
whose counts make up the theme vector `transform([category_text])`. -/
def themeTokens (phrases : List String) : List String :=
  sklearnTokens (themeText phrases)

/-- The similarity computed for one (category, theme, phrases) triple
against the input tokens. -/
def scoreOf (vocab : List String) (idf : String → ℚ) (inputToks : List String)
    (e : String × String × List String) : SimVal :=
  simOf vocab idf inputToks (themeTokens e.2.2)

/-- The nested loops of `get_text_theme`: update the best pair whenever the
similarity is strictly greater than the current maximum. -/
def scanThemes (score : String × String × List String → SimVal) :
    BestState → List (String × String × List String) → BestState
  | st, [] => st
  | st, e :: es =>
    scanThemes score (if simGT (score e) st.best then ⟨score e, e.1, e.2.1⟩ else st) es

/-- `TextAnalyst.get_text_theme` up to JSON serialisation.  An un-fit
vectorizer (`model = none`) makes `transform` raise `NotFittedError`, and a
`None` tokenized text makes `transform` raise on `None.lower()`; both land
in the `except` branch, which returns the error dictionary. -/
def get_text_theme (nlp : String → List SpacyToken) (wt : String → List String)
    (model : Option (List String)) (idf : String → ℚ) (tax : Taxonomy)
    (input : String) : ClassifyResult :=
  match model with
  | none => .err classifyErrMsg
  | some vocab =>
    match transformArgOf nlp wt input with
    | none => .err classifyErrMsg
    | some tokenized =>
      .ok (scanThemes (scoreOf vocab idf (sklearnTokens tokenized))
            ⟨initSim, "", ""⟩ (taxonomyPairs tax)).category
          (scanThemes (scoreOf vocab idf (sklearnTokens tokenized))
            ⟨initSim, "", ""⟩ (taxonomyPairs tax)).theme

/-- A sequence of classification requests against one fitted model.  The
source method reads `self.data`, `self.categories`, `self.vectorizer` and
never writes them, so a call sequence is the map of the single-call
function. -/
def runClassify (nlp : String → List SpacyToken) (wt : String → List String)
    (model : Option (List String)) (idf : String → ℚ) (tax : Taxonomy)
    (inputs : List String) : List ClassifyResult :=
  inputs.map (get_text_theme nlp wt model idf tax)

/-! ## JSON serialisation and the HTTP boundary (`nApi.check_url`) -/

/-- JSON string escaping for the characters that occur in the program's
output (backslash and double quote; `ensure_ascii` escaping of non-ASCII
characters is not modelled, it only re-spells characters inside the same
string). -/
def jsonEscapeChar (c : Char) : List Char :=
  if c = '\\' then ['\\', '\\']
  else if c = '\"' then ['\\', '\"']
  else [c]

/-- JSON escaping of a whole string. -/
def jsonEscape (s : String) : String :=
  String.mk ((s.toList.map jsonEscapeChar).flatten)

/-- `json.dumps` of a Python string value. -/
def dumpStr (s : String) : String :=
  "\"" ++ jsonEscape s ++ "\""

/-- `json.dumps` of the result dictionary of `get_text_theme`, with the
separators Python uses by default. -/
def dumpsResult : ClassifyResult → String
  | .ok c t => "\x7b\"category\": " ++ dumpStr c ++ ", \"theme\": " ++ dumpStr t ++ "\x7d"
  | .err m => "\x7b\"error\": " ++ dumpStr m ++ "\x7d"

/-- The string `get_text_theme` actually returns:
`json.dumps(result, ensure_ascii=False)`. -/
def get_text_theme_json (nlp : String → List SpacyToken) (wt : String → List String)
    (model : Option (List String)) (idf : String → ℚ) (tax : Taxonomy)
    (input : String) : String :=
  dumpsResult (get_text_theme nlp wt model idf tax input)

/-- The HTTP response body built by `nApi.check_url`:
`json.dumps(report, ensure_ascii=False)` where `report` is the string
returned by `get_text_theme` — a second JSON encoding. -/
def checkUrlBody (nlp : String → List SpacyToken) (wt : String → List String)
    (model : Option (List String)) (idf : String → ℚ) (tax : Taxonomy)
    (input : String) : String :=
  dumpStr (get_text_theme_json nlp wt model idf tax input)

/-! ## Spec-stated variants (for refinement comparisons only)

Each definition in this section follows the words of the specification, not
the source, and exists solely to be compared with the corresponding
source-derived definition above. -/

/-- Spec §4.2 step 3 discard condition, as the spec states it: the
exclusion-list test is applied to the lowercased lemma instead of the
surface form. -/
def discardTokenSpec (t : SpacyToken) : Bool :=
  t.is_stop || t.is_punct || pyIsNumeric t.text || !pyIsAlnum t.text ||
    exclusion_list.contains (ruLower t.lemma_)

/-- The `clean_text` loop with the spec-stated discard condition. -/
def cleanLoopSpec : List SpacyToken → List String
  | [] => []
  | t :: ts =>
    if discardTokenSpec t then cleanLoopSpec ts
    else (ruLower t.lemma_).trim :: cleanLoopSpec ts

/-- Fit-time documents as the spec states them: one per phrase, each passed
through the two-stage pipeline of §4.2 — linguistic normalization
(`clean_text`) and then generic tokenization with space-joining. -/
def prepare_dataSpec (nlp : String → List SpacyToken) (wt : String → List String)
    (tax : Taxonomy) : List String :=
  (taxonomyPhrases tax).map (fun p => joinSpace (wt (clean_text nlp p)))

/-- The theme-vector token stream as the spec states it:
`transform(tokenize(theme_text))`, i.e. the raw concatenation passed
through `tokenize_text` before the vectorizer's analyzer (`none` when
`tokenize_text` failed). -/
def themeTokensSpec (wt : String → List String) (phrases : List String) :
    Option (List String) :=
  (tokenize_text wt (some (themeText phrases))).map sklearnTokens

/-- Collapsing every theme's phrase list to the single concatenated phrase:
the classifier only ever sees the space-joined concatenation of a theme's
phrases, so this transformation must not change any classification. -/
def collapseThemes (tax : Taxonomy) : Taxonomy :=
  tax.map (fun c => (c.1, c.2.map (fun th => (th.1, [themeText th.2]))))

/-! ## Concrete library instances for witnesses

The general theorems below are parameterized over the external libraries
(`nlp`, `wt`, `idf`); the following concrete functions record the actual
behaviour of spaCy's `ru_core_news_sm`, nltk's `word_tokenize` and a
positive idf assignment on the inputs that appear in the witnesses. -/

/-- Whitespace split, dropping empty fragments. -/
def wsSplit (s : String) : List String :=
  charRuns (fun c => c != ' ') [] s.data

/-- nltk `word_tokenize` on the inputs used below: plain space-separated
words split at the spaces, and the Treebank contraction rule that splits
`cannot` into `can` + `not`. -/
def wtEx (s : String) : List String :=
  if s = "cannot" then ["can", "not"] else wsSplit s

/-- spaCy `ru_core_news_sm` on the inputs used below: the recorded token
attributes for the Russian inputs of the spec's scenarios, and a
word-per-token identity lemmatization otherwise. -/
def nlpEx (s : String) : List SpacyToken :=
  if s = "красная машина" then
    [⟨"красная", "красный", false, false⟩, ⟨"машина", "машина", false, false⟩]
  else if s = "экономика биржа" then
    [⟨"экономика", "экономика", false, false⟩, ⟨"биржа", "биржа", false, false⟩]
  else (wsSplit s).map (fun w => ⟨w, w, false, false⟩)

/-- A concrete positive idf assignment. -/
def idfOne : String → ℚ := fun _ => 1

/-- The taxonomy of the spec's tie-break scenario. -/
def taxAB : Taxonomy :=
  [("A", [("t1", ["красная машина"])]), ("B", [("t2", ["красная машина"])])]

/-- Vocabulary fitted on `taxAB`. -/
def vocabAB : List String := buildVocabulary (prepare_data wtEx taxAB)

/-- The taxonomy of the spec's no-overlap scenario. -/
def taxW : Taxonomy := [("W", [("w1", ["погода дождь снег"])])]

/-- Vocabulary fitted on `taxW`. -/
def vocabW : List String := buildVocabulary (prepare_data wtEx taxW)

/-- A taxonomy whose phrase nltk tokenizes differently from sklearn's
analyzer (`word_tokenize` splits `cannot` into `can not`). -/
def taxE : Taxonomy := [("E", [("e1", ["cannot"])])]

/-- Vocabulary fitted on `taxE`. -/
def vocabE : List String := buildVocabulary (prepare_data wtEx taxE)

/-- A taxonomy with a numeral inside a phrase. -/
def tax123 : Taxonomy := [("C", [("c1", ["123 машина"])])]

/-- A token whose lowercased lemma is `nan` but whose surface form is not. -/
def tokNaN : SpacyToken := ⟨"NaN", "NaN", false, false⟩

/-- The real number a `SimVal` stands for: the cosine similarity
`dot / sqrt(nrm2)`, with the zero-vector convention of sklearn's
`cosine_similarity` (a zero squared-norm product yields 0).  Used only to
justify that `simGT` decides the real comparison exactly. -/
noncomputable def simReal (s : SimVal) : ℝ :=
  if s.nrm2 ≤ 0 then 0 else (s.dot : ℝ) / Real.sqrt (s.nrm2 : ℝ)

/-! ## Helper lemmas -/

/-- The last element of a list extended by one element. -/
theorem getLast?_append_singleton {α : Type} (l : List α) (x : α) :
    (l ++ [x]).getLast? = some x := by
  rw [List.getLast?_concat]

/-- Every tf-idf dot product of this model is non-negative: the term
counts are non-negative and each idf weight enters squared. -/
theorem docDot_nonneg (vocab : List String) (idf : String → ℚ) (u v : List String) :
    0 ≤ docDot vocab idf u v := by
  unfold docDot
  apply List.sum_nonneg
  intro x hx
  rcases List.mem_map.mp hx with ⟨t, ht, rfl⟩
  positivity

/-- Both fields of every similarity value produced by `simOf` are
non-negative, so `simGT` is only ever applied in its exact range. -/
theorem simOf_nonneg (vocab : List String) (idf : String → ℚ) (u v : List String) :
    0 ≤ (simOf vocab idf u v).dot ∧ 0 ≤ (simOf vocab idf u v).nrm2 :=
  ⟨docDot_nonneg vocab idf u v,
    mul_nonneg (docDot_nonneg vocab idf u u) (docDot_nonneg vocab idf v v)⟩

/-- A `SimVal` with non-positive dot product (and a non-negative one, as
`simOf` always produces) stands for the real value 0. -/
theorem simReal_eq_zero (a : SimVal) (ha : 0 ≤ a.dot)
    (h : a.dot ≤ 0 ∨ a.nrm2 ≤ 0) : simReal a = 0 := by
  unfold simReal
  rcases h with h | h
  · by_cases h2 : a.nrm2 ≤ 0
    · rw [if_pos h2]
    · rw [if_neg h2, le_antisymm h ha]
      simp
  · rw [if_pos h]

/-- The real value of a `SimVal` with non-negative dot product is
non-negative. -/
theorem simReal_nonneg (a : SimVal) (ha : 0 ≤ a.dot) : 0 ≤ simReal a := by
  unfold simReal
  by_cases h : a.nrm2 ≤ 0
  · rw [if_pos h]
  · rw [if_neg h]
    have : (0 : ℝ) ≤ (a.dot : ℝ) := by exact_mod_cast ha
    exact div_nonneg this (Real.sqrt_nonneg _)

/-- On similarity values with non-negative dot products — i.e. all values
this model produces — the boolean `simGT` decides exactly the strict
comparison of the real cosine similarities. -/
theorem simGT_iff_real (a b : SimVal) (ha : 0 ≤ a.dot) (hb : 0 ≤ b.dot) :
    simGT a b = true ↔ simReal b < simReal a := by
  unfold simGT
  by_cases h1 : a.dot ≤ 0 ∨ a.nrm2 ≤ 0
  · rw [if_pos h1]
    simp only [Bool.false_eq_true, false_iff, not_lt]
    rw [simReal_eq_zero a ha h1]
    exact simReal_nonneg b hb
  · push_neg at h1
    rw [if_neg (by push_neg; exact h1)]
    have hda : (0 : ℝ) < (a.dot : ℝ) := by exact_mod_cast h1.1
    have hna : (0 : ℝ) < (a.nrm2 : ℝ) := by exact_mod_cast h1.2
    have hva : simReal a = (a.dot : ℝ) / Real.sqrt (a.nrm2 : ℝ) := by
      unfold simReal
      rw [if_neg (not_le.mpr h1.2)]
    have hpos : 0 < simReal a := by
      rw [hva]
      exact div_pos hda (Real.sqrt_pos.mpr hna)
    by_cases h2 : b.dot ≤ 0 ∨ b.nrm2 ≤ 0
    · rw [if_pos h2]
      simp only [true_iff]
      rw [simReal_eq_zero b hb h2]
      exact hpos
    · push_neg at h2
      rw [if_neg (by push_neg; exact h2)]
      have hdb : (0 : ℝ) < (b.dot : ℝ) := by exact_mod_cast h2.1
      have hnb : (0 : ℝ) < (b.nrm2 : ℝ) := by exact_mod_cast h2.2
      have hvb : simReal b = (b.dot : ℝ) / Real.sqrt (b.nrm2 : ℝ) := by
        unfold simReal
        rw [if_neg (not_le.mpr h2.2)]
      rw [decide_eq_true_eq, hva, hvb,
        div_lt_div_iff₀ (Real.sqrt_pos.mpr hnb) (Real.sqrt_pos.mpr hna)]
      have hsq : (b.dot : ℝ) * Real.sqrt (a.nrm2 : ℝ) < (a.dot : ℝ) * Real.sqrt (b.nrm2 : ℝ) ↔
          ((b.dot : ℝ) * Real.sqrt (a.nrm2 : ℝ)) ^ 2 <
            ((a.dot : ℝ) * Real.sqrt (b.nrm2 : ℝ)) ^ 2 := by
        rw [pow_lt_pow_iff_left₀ (mul_nonneg (le_of_lt hdb) (Real.sqrt_nonneg _))
          (mul_nonneg (le_of_lt hda) (Real.sqrt_nonneg _)) (two_ne_zero)]
      rw [hsq, mul_pow, mul_pow, Real.sq_sqrt (le_of_lt hna), Real.sq_sqrt (le_of_lt hnb)]
      constructor
      · intro h
        exact_mod_cast h
      · intro h
        exact_mod_cast h

/-- Similarity is never strictly greater than itself. -/
theorem simGT_self_false (s : SimVal) : simGT s s = false := by
  unfold simGT
  by_cases h : s.dot ≤ 0 ∨ s.nrm2 ≤ 0
  · rw [if_pos h]
  · rw [if_neg h, if_neg h]
    simp

/-- A similarity with positive dot product and positive squared-norm
product is strictly greater than the initial maximum 0. -/
theorem simGT_init_pos (s : SimVal) (h1 : 0 < s.dot) (h2 : 0 < s.nrm2) :
    simGT s initSim = true := by
  unfold simGT initSim
  rw [if_neg, if_pos]
  · exact Or.inl le_rfl
  · push_neg
    exact ⟨h1, h2⟩

/-- A similarity with non-positive dot product never beats anything. -/
theorem simGT_dot_nonpos (a b : SimVal) (h : a.dot ≤ 0) : simGT a b = false := by
  unfold simGT
  rw [if_pos (Or.inl h)]

/-- The scan never changes its state while no remaining theme scores
strictly above the current maximum. -/
theorem scanThemes_no_update (score : String × String × List String → SimVal)
    (st : BestState) (es : List (String × String × List String))
    (h : ∀ e ∈ es, simGT (score e) st.best = false) :
    scanThemes score st es = st := by
  induction es with
  | nil => rfl
  | cons e es ih =>
    have he := h e (List.mem_cons_self e es)
    simp only [scanThemes, he, Bool.false_eq_true, if_false]
    exact ih fun x hx => h x (List.mem_cons_of_mem e hx)

/-- `get_text_theme` on a fitted model and a successfully tokenized input
runs the theme scan. -/
theorem get_text_theme_run (nlp : String → List SpacyToken) (wt : String → List String)
    (vocab : List String) (idf : String → ℚ) (tax : Taxonomy) (input tokenized : String)
    (h : transformArgOf nlp wt input = some tokenized) :
    get_text_theme nlp wt (some vocab) idf tax input =
      .ok (scanThemes (scoreOf vocab idf (sklearnTokens tokenized))
            ⟨initSim, "", ""⟩ (taxonomyPairs tax)).category
          (scanThemes (scoreOf vocab idf (sklearnTokens tokenized))
            ⟨initSim, "", ""⟩ (taxonomyPairs tax)).theme := by
  unfold get_text_theme
  rw [h]

/-- Scanning two entries whose scores are equal and positive selects the
first. -/
theorem scanThemes_pair_tie (score : String × String × List String → SimVal)
    (e1 e2 : String × String × List String) (h : score e2 = score e1)
    (h1 : 0 < (score e1).dot) (h2 : 0 < (score e1).nrm2) :
    scanThemes score ⟨initSim, "", ""⟩ [e1, e2] = ⟨score e1, e1.1, e1.2.1⟩ := by
  have ht := simGT_init_pos (score e1) h1 h2
  simp only [scanThemes, ht, if_true, h, simGT_self_false, Bool.false_eq_true, if_false]

/-- Empty-vocabulary dot product. -/
theorem docDot_nil (idf : String → ℚ) (u v : List String) : docDot [] idf u v = 0 := rfl

/-- One step of the dot product over the vocabulary. -/
theorem docDot_cons (t : String) (ts : List String) (idf : String → ℚ)
    (u v : List String) :
    docDot (t :: ts) idf u v =
      (u.count t : ℚ) * (v.count t : ℚ) * idf t ^ 2 + docDot ts idf u v := by
  simp [docDot]

/-- `' '.join` of a one-element list is the element. -/
theorem themeText_singleton (s : String) : themeText [s] = s := rfl

/-- Collapsing the phrase lists commutes with flattening the taxonomy. -/
theorem taxonomyPairs_collapse (tax : Taxonomy) :
    taxonomyPairs (collapseThemes tax) =
      (taxonomyPairs tax).map (fun e => (e.1, e.2.1, [themeText e.2.2])) := by
  induction tax with
  | nil => rfl
  | cons c rest ih =>
    cases c with
    | mk cname themes =>
      simp only [collapseThemes, List.map_cons, taxonomyPairs, List.map_append,
        List.map_map]
      rw [← ih]
      simp [collapseThemes, Function.comp]

/-- The scan is invariant under collapsing every theme to its concatenated
phrase text: the score only reads the concatenation. -/
theorem scanThemes_collapse (vocab : List String) (idf : String → ℚ)
    (toks : List String) (st : BestState)
    (es : List (String × String × List String)) :
    scanThemes (scoreOf vocab idf toks) st
        (es.map (fun e => (e.1, e.2.1, [themeText e.2.2]))) =
      scanThemes (scoreOf vocab idf toks) st es := by
  induction es generalizing st with
  | nil => rfl
  | cons e es ih =>
    have hsc : scoreOf vocab idf toks (e.1, e.2.1, [themeText e.2.2]) =
        scoreOf vocab idf toks e := by
      simp [scoreOf, themeTokens, themeText_singleton]
    simp only [List.map_cons, scanThemes, hsc]
    exact ih _

/-- Closed form of the inner loops of `prepare_data`. -/
theorem prepareThemes_eq (wt : String → List String)
    (ts : List (String × List String)) :
    prepareThemes wt ts =
      (themesPhrases ts).map (fun p => joinSpace (wt p)) := by
  induction ts with
  | nil => rfl
  | cons t rest ih =>
    cases t with
    | mk name phrases => simp [prepareThemes, themesPhrases, ih]

/-! ## Claims -/

/-- C1 counterexample: on the empty input, `get_text_theme` does not return
the no-match sentinel — `tokenize_text` turns the empty normalized text
into `None`, `transform([None])` raises, and the `except` branch returns
the error dictionary. -/
theorem c1_counterexample :
    get_text_theme nlpEx wtEx (some vocabAB) idfOne taxAB "" = .err classifyErrMsg ∧
    get_text_theme nlpEx wtEx (some vocabAB) idfOne taxAB "" ≠ .ok "" "" := by
  decide

/-- C1 (amended): for the empty input string, classification returns the
error object `{"error": ...}` (not the no-match sentinel), never raises,
and does not affect the shared fitted model: the result of any subsequent
call is exactly the single-call result. -/
theorem c1_empty_input_error (nlp : String → List SpacyToken) (wt : String → List String)
    (vocab : List String) (idf : String → ℚ) (tax : Taxonomy)
    (h : clean_text nlp "" = "") :
    get_text_theme nlp wt (some vocab) idf tax "" = .err classifyErrMsg ∧
    ∀ t : String, (runClassify nlp wt (some vocab) idf tax ["", t]).getLast? =
      some (get_text_theme nlp wt (some vocab) idf tax t) := by
  constructor
  · unfold get_text_theme transformArgOf
    rw [h]
    rfl
  · intro t
    rfl


/-- C1 witness: the amended claim at the concrete instance. -/
theorem c1_witness :
    get_text_theme nlpEx wtEx (some vocabAB) idfOne taxAB "" =
      ClassifyResult.err classifyErrMsg :=
  (c1_empty_input_error nlpEx wtEx vocabAB idfOne taxAB (by decide)).1

/-- C2: on an empty (or failed) document list, `train_vectorizer` raises
`ValueError` but its own `except` clause swallows it: the method returns
normally having only written a log line, the vectorizer is left un-fit,
and every subsequent classification call returns the error dictionary —
the failure is never raised to the caller. -/
theorem c2_empty_corpus_swallowed :
    train_vectorizer (some []) = ⟨none, some trainErrEmpty⟩ ∧
    train_vectorizer none = ⟨none, some trainErrEmpty⟩ ∧
    ∀ (nlp : String → List SpacyToken) (wt : String → List String) (idf : String → ℚ)
      (tax : Taxonomy) (input : String),
      get_text_theme nlp wt (train_vectorizer (some [])).fitted idf tax input =
        .err classifyErrMsg :=
  ⟨rfl, rfl, fun _ _ _ _ _ => rfl⟩

/-- C3 counterexample: the fit-time documents of the taxonomy with phrase
`"123 машина"` are not the documents of the spec's two-stage pipeline —
`prepare_data` keeps the numeral, linguistic normalization would drop it. -/
theorem c3_counterexample :
    prepare_data wtEx tax123 = ["123 машина"] ∧
    prepare_dataSpec nlpEx wtEx tax123 = ["машина"] ∧
    prepare_data wtEx tax123 ≠ prepare_dataSpec nlpEx wtEx tax123 := by
  decide

/-- C3 (amended): every fit-time document is exactly one taxonomy phrase
passed through the generic tokenization with space-joining ONLY — the
linguistic normalization stage is not applied at fit time, so vocabulary
and document-frequency statistics are estimated over per-phrase
word-tokenized raw documents. -/
theorem c3_fit_documents_generic_tokenize_only (wt : String → List String)
    (tax : Taxonomy) :
    prepare_data wt tax =
      (taxonomyPhrases tax).map (fun p => joinSpace (wt p)) := by
  induction tax with
  | nil => rfl
  | cons c rest ih =>
    cases c with
    | mk name themes => simp [prepare_data, taxonomyPhrases, prepareThemes_eq, ih]

/-- C7 counterexample: the HTTP layer does not transmit the result object
itself — `check_url` applies `json.dumps` to the string `get_text_theme`
already returned, so the body is the JSON encoding of a string, not the
object. -/
theorem c7_counterexample :
    checkUrlBody nlpEx wtEx (some vocabAB) idfOne taxAB "красная машина" ≠
      get_text_theme_json nlpEx wtEx (some vocabAB) idfOne taxAB "красная машина" := by
  decide

/-- C7 (amended): `get_text_theme` always returns the JSON serialisation of
exactly one of the two dictionary shapes `{"category": ..., "theme": ...}`
or `{"error": ...}`, and the HTTP layer transmits the JSON-string
re-encoding of that serialisation (a double encoding), not the bare
object. -/
theorem c7_result_shape (nlp : String → List SpacyToken) (wt : String → List String)
    (model : Option (List String)) (idf : String → ℚ) (tax : Taxonomy)
    (input : String) :
    ∃ r : ClassifyResult,
      get_text_theme_json nlp wt model idf tax input = dumpsResult r ∧
      checkUrlBody nlp wt model idf tax input = dumpStr (dumpsResult r) :=
  ⟨get_text_theme nlp wt model idf tax input, rfl, rfl⟩

/-- C8 counterexample: a token with surface form `NaN` and lemma `NaN` is
kept by `clean_text` (the code tests the surface form against the
exclusion list), while the spec's condition — lowercased lemma in the
exclusion list — would discard it. -/
theorem c8_counterexample :
    cleanLoop [tokNaN] = ["nan"] ∧ cleanLoopSpec [tokNaN] = [] ∧
    cleanLoop [tokNaN] ≠ cleanLoopSpec [tokNaN] := by
  decide

/-- C8 (amended): a token is discarded if and only if it is a stop word,
is punctuation, has a purely numeric surface form, has a non-alphanumeric
surface form, or its SURFACE FORM (not its lowercased lemma) is in the
hard-coded exclusion list, which contains the literal string `nan`; every
surviving token contributes its lowercased, whitespace-stripped lemma. -/
theorem c8_clean_text_filter :
    "nan" ∈ exclusion_list ∧
    ∀ ts : List SpacyToken,
      cleanLoop ts =
        (ts.filter (fun t => !(t.is_stop || t.is_punct || pyIsNumeric t.text ||
          !pyIsAlnum t.text || exclusion_list.contains t.text))).map
          (fun t => pyStrip (ruLower t.lemma_)) := by
  refine ⟨by decide, fun ts => ?_⟩
  induction ts with
  | nil => rfl
  | cons t ts ih =>
    have hp : (!(t.is_stop || t.is_punct || pyIsNumeric t.text ||
        !pyIsAlnum t.text || exclusion_list.contains t.text)) = !discardToken t := rfl
    simp only [cleanLoop, List.filter_cons, hp]
    cases hd : discardToken t with
    | true =>
      simp only [Bool.not_true, Bool.false_eq_true, if_false, if_true]
      exact ih
    | false =>
      simp only [Bool.not_false, if_true, Bool.false_eq_true, if_false, List.map_cons]
      rw [ih]

/-- C9: classification is deterministic and history-independent: the result
for an input text against a fixed fitted model and taxonomy is the same
whatever requests preceded it — the source method only reads the shared
state. -/
theorem c9_classify_deterministic (nlp : String → List SpacyToken)
    (wt : String → List String) (model : Option (List String)) (idf : String → ℚ)
    (tax : Taxonomy) (pre1 pre2 : List String) (t : String) :
    (runClassify nlp wt model idf tax (pre1 ++ [t])).getLast? =
      (runClassify nlp wt model idf tax (pre2 ++ [t])).getLast? := by
  unfold runClassify
  rw [List.map_append, List.map_append]
  simp only [List.map_cons, List.map_nil]
  rw [getLast?_append_singleton, getLast?_append_singleton]

/-- C10: `tokenize_text` maps every falsy input (`None` or the empty
string) to `None`, and therefore the value handed to the vectorizer's
`transform` inside classification is `None` whenever the normalized input
text is empty. -/
theorem c10_tokenize_falsy_none :
    (∀ wt : String → List String, tokenize_text wt none = none) ∧
    (∀ wt : String → List String, tokenize_text wt (some "") = none) ∧
    (∀ (nlp : String → List SpacyToken) (wt : String → List String) (input : String),
      clean_text nlp input = "" → transformArgOf nlp wt input = none) := by
  refine ⟨fun _ => rfl, fun _ => rfl, fun nlp wt input h => ?_⟩
  unfold transformArgOf
  rw [h]
  rfl

/-- C10 witness: the concrete instance at the empty input. -/
theorem c10_witness : transformArgOf nlpEx wtEx "" = none :=
  c10_tokenize_falsy_none.2.2 nlpEx wtEx "" (by decide)

/-- C4 counterexample: `get_text_theme` does not pass `theme_text` through
`tokenize_text` before transforming — nltk splits `cannot` into
`can not`, so the spec route and the code route produce different token
streams and hence different theme vectors and similarities. -/
theorem c4_counterexample :
    themeTokens ["cannot"] = ["cannot"] ∧
    themeTokensSpec wtEx ["cannot"] = some ["can", "not"] ∧
    simOf vocabE idfOne ["can"] ["cannot"] ≠ simOf vocabE idfOne ["can"] ["can", "not"] := by
  refine ⟨by decide, by decide, ?_⟩
  have hv : vocabE = ["can", "not"] := by decide
  have d1 : List.count "can" ["can"] = 1 := rfl
  have d2 : List.count "not" ["can"] = 0 := rfl
  have d3 : List.count "can" ["cannot"] = 0 := rfl
  have d4 : List.count "not" ["cannot"] = 0 := rfl
  have d5 : List.count "can" ["can", "not"] = 1 := rfl
  have d6 : List.count "not" ["can", "not"] = 1 := rfl
  have h1 : simOf vocabE idfOne ["can"] ["cannot"] = ⟨0, 0⟩ := by
    rw [hv]
    show SimVal.mk (docDot ["can", "not"] idfOne ["can"] ["cannot"])
      (docDot ["can", "not"] idfOne ["can"] ["can"] *
        docDot ["can", "not"] idfOne ["cannot"] ["cannot"]) = _
    simp only [docDot_cons, docDot_nil]
    rw [d1, d2, d3, d4]
    congr 1
    · norm_num [idfOne]
    · norm_num [idfOne]
  have h2 : simOf vocabE idfOne ["can"] ["can", "not"] = ⟨1, 2⟩ := by
    rw [hv]
    show SimVal.mk (docDot ["can", "not"] idfOne ["can"] ["can", "not"])
      (docDot ["can", "not"] idfOne ["can"] ["can"] *
        docDot ["can", "not"] idfOne ["can", "not"] ["can", "not"]) = _
    simp only [docDot_cons, docDot_nil]
    rw [d1, d2, d5, d6]
    congr 1
    · norm_num [idfOne]
    · norm_num [idfOne]
  rw [h1, h2]
  norm_num [SimVal.mk.injEq]

/-- C4 (amended): the theme vector is computed as
`transform(theme_text)` directly, where `theme_text` is the concatenation
of ALL phrases under the theme joined by single spaces — neither
individually normalized nor passed through the generic tokenizer.
Consequently (1) collapsing every theme's phrase list to the single
concatenated phrase never changes any classification, and (2) tokens that
normalization would remove (e.g. numerals) stay in the theme's token
stream. -/
theorem c4_theme_vector_raw_concat :
    (∀ (nlp : String → List SpacyToken) (wt : String → List String)
      (vocab : List String) (idf : String → ℚ) (tax : Taxonomy) (input : String),
      get_text_theme nlp wt (some vocab) idf (collapseThemes tax) input =
        get_text_theme nlp wt (some vocab) idf tax input) ∧
    themeTokens ["123 машина", "быстро"] = ["123", "машина", "быстро"] := by
  constructor
  · intro nlp wt vocab idf tax input
    cases h : transformArgOf nlp wt input with
    | none =>
      unfold get_text_theme
      rw [h]
    | some tokenized =>
      rw [get_text_theme_run nlp wt vocab idf (collapseThemes tax) input tokenized h,
        get_text_theme_run nlp wt vocab idf tax input tokenized h,
        taxonomyPairs_collapse, scanThemes_collapse]
  · decide

/-- C6: a theme is selected only when its similarity is strictly greater
than the initial maximum 0; when no (category, theme) pair scores above 0,
the scan never updates and classification returns the no-match sentinel
`("", "")` as a normal (non-error) result.  In particular, for the
taxonomy with single phrase `погода дождь снег` and the disjoint input
`экономика биржа`, the result is the sentinel for every idf assignment. -/
theorem c6_zero_threshold_sentinel :
    (∀ (nlp : String → List SpacyToken) (wt : String → List String)
      (vocab : List String) (idf : String → ℚ) (tax : Taxonomy)
      (input tokenized : String),
      transformArgOf nlp wt input = some tokenized →
      (∀ e ∈ taxonomyPairs tax,
        simGT (scoreOf vocab idf (sklearnTokens tokenized) e) initSim = false) →
      get_text_theme nlp wt (some vocab) idf tax input = .ok "" "") ∧
    ∀ idf : String → ℚ,
      get_text_theme nlpEx wtEx (some vocabW) idf taxW "экономика биржа" = .ok "" "" := by
  constructor
  · intro nlp wt vocab idf tax input tokenized h hall
    rw [get_text_theme_run nlp wt vocab idf tax input tokenized h,
      scanThemes_no_update _ _ _ hall]
  · intro idf
    have hArg : transformArgOf nlpEx wtEx "экономика биржа" = some "экономика биржа" := by
      decide
    have hv : vocabW = ["погода", "дождь", "снег"] := by decide
    have htoks : sklearnTokens "экономика биржа" = ["экономика", "биржа"] := by decide
    have hth : themeTokens ["погода дождь снег"] = ["погода", "дождь", "снег"] := by decide
    have hall : ∀ e ∈ taxonomyPairs taxW,
        simGT (scoreOf vocabW idf (sklearnTokens "экономика биржа") e)
          (BestState.mk initSim "" "").best = false := by
      intro e he
      have hmem : e = ("W", "w1", ["погода дождь снег"]) := by
        have hp : taxonomyPairs taxW = [("W", "w1", ["погода дождь снег"])] := by decide
        rw [hp] at he
        exact List.mem_singleton.mp he
      subst hmem
      apply simGT_dot_nonpos
      have hdot : (scoreOf vocabW idf (sklearnTokens "экономика биржа")
          ("W", "w1", ["погода дождь снег"])).dot = 0 := by
        show docDot vocabW idf (sklearnTokens "экономика биржа")
          (themeTokens ["погода дождь снег"]) = 0
        rw [hv, htoks, hth]
        simp only [docDot_cons, docDot_nil]
        have c1 : List.count "погода" ["экономика", "биржа"] = 0 := rfl
        have c2 : List.count "дождь" ["экономика", "биржа"] = 0 := rfl
        have c3 : List.count "снег" ["экономика", "биржа"] = 0 := rfl
        rw [c1, c2, c3]
        push_cast
        ring
      rw [hdot]
    rw [get_text_theme_run nlpEx wtEx vocabW idf taxW "экономика биржа" "экономика биржа" hArg,
      scanThemes_no_update _ _ _ hall]

/-- C6 witness: the general sentinel property applied at the concrete
no-overlap instance with idf weight 1. -/
theorem c6_witness :
    get_text_theme nlpEx wtEx (some vocabW) idfOne taxW "экономика биржа" =
      ClassifyResult.ok "" "" := by
  apply c6_zero_threshold_sentinel.1 nlpEx wtEx vocabW idfOne taxW "экономика биржа"
    "экономика биржа" (by decide)
  intro e he
  have hmem : e = ("W", "w1", ["погода дождь снег"]) := by
    have hp : taxonomyPairs taxW = [("W", "w1", ["погода дождь снег"])] := by decide
    rw [hp] at he
    exact List.mem_singleton.mp he
  subst hmem
  apply simGT_dot_nonpos
  refine le_of_eq ?_
  show docDot vocabW idfOne (sklearnTokens "экономика биржа")
    (themeTokens ["погода дождь снег"]) = 0
  have hv : vocabW = ["погода", "дождь", "снег"] := by decide
  have htoks : sklearnTokens "экономика биржа" = ["экономика", "биржа"] := by decide
  have hth : themeTokens ["погода дождь снег"] = ["погода", "дождь", "снег"] := by decide
  rw [hv, htoks, hth]
  simp only [docDot_cons, docDot_nil]
  have c1 : List.count "погода" ["экономика", "биржа"] = 0 := rfl
  have c2 : List.count "дождь" ["экономика", "биржа"] = 0 := rfl
  have c3 : List.count "снег" ["экономика", "биржа"] = 0 := rfl
  rw [c1, c2, c3]
  norm_num

/-- C5: the maximum tracker updates only on strictly greater similarity, so
a later theme with an equal-or-lower score never overwrites the current
best (first conjunct), and in the spec's concrete tie scenario — two
categories with identical phrase `красная машина` and input
`красная машина` — the first pair (`A`, `t1`) wins for every positive idf
assignment (second conjunct). -/
theorem c5_tie_break_first_wins :
    (∀ (score : String × String × List String → SimVal) (st : BestState)
      (es : List (String × String × List String)),
      (∀ e ∈ es, simGT (score e) st.best = false) → scanThemes score st es = st) ∧
    ∀ idf : String → ℚ, (∀ t, 0 < idf t) →
      get_text_theme nlpEx wtEx (some vocabAB) idf taxAB "красная машина" =
        .ok "A" "t1" := by
  constructor
  · exact scanThemes_no_update
  · intro idf hidf
    have hArg : transformArgOf nlpEx wtEx "красная машина" = some "красный машина" := by
      decide
    have htoks : sklearnTokens "красный машина" = ["красный", "машина"] := by decide
    have hv : vocabAB = ["красная", "машина"] := by decide
    have hth : themeTokens ["красная машина"] = ["красная", "машина"] := by decide
    have hPairs : taxonomyPairs taxAB =
        [("A", "t1", ["красная машина"]), ("B", "t2", ["красная машина"])] := by decide
    have cu1 : List.count "красная" ["красный", "машина"] = 0 := rfl
    have cu2 : List.count "машина" ["красный", "машина"] = 1 := rfl
    have cv1 : List.count "красная" ["красная", "машина"] = 1 := rfl
    have cv2 : List.count "машина" ["красная", "машина"] = 1 := rfl
    have hscore : ∀ c t : String,
        scoreOf vocabAB idf (sklearnTokens "красный машина") (c, t, ["красная машина"]) =
          ⟨idf "машина" ^ 2,
            idf "машина" ^ 2 * (idf "красная" ^ 2 + idf "машина" ^ 2)⟩ := by
      intro c t
      show simOf vocabAB idf (sklearnTokens "красный машина")
        (themeTokens ["красная машина"]) = _
      rw [htoks, hv, hth]
      show SimVal.mk
        (docDot ["красная", "машина"] idf ["красный", "машина"] ["красная", "машина"])
        (docDot ["красная", "машина"] idf ["красный", "машина"] ["красный", "машина"] *
          docDot ["красная", "машина"] idf ["красная", "машина"] ["красная", "машина"]) = _
      simp only [docDot_cons, docDot_nil]
      rw [cu1, cu2, cv1, cv2]
      congr 1
      · push_cast
        ring
      · push_cast
        ring
    have hdotpos : (0 : ℚ) < idf "машина" ^ 2 := pow_pos (hidf "машина") 2
    have hnrmpos : (0 : ℚ) <
        idf "машина" ^ 2 * (idf "красная" ^ 2 + idf "машина" ^ 2) :=
      mul_pos hdotpos (add_pos_of_nonneg_of_pos (sq_nonneg _) hdotpos)
    rw [get_text_theme_run nlpEx wtEx vocabAB idf taxAB "красная машина" "красный машина" hArg,
      hPairs,
      scanThemes_pair_tie _ _ _ ((hscore "B" "t2").trans (hscore "A" "t1").symm)
        (by rw [hscore "A" "t1"]; exact hdotpos)
        (by rw [hscore "A" "t1"]; exact hnrmpos)]

/-- C5 witness: the tie-break theorem applied with idf weight 1. -/
theorem c5_witness :
    get_text_theme nlpEx wtEx (some vocabAB) idfOne taxAB "красная машина" =
      ClassifyResult.ok "A" "t1" :=
  c5_tie_break_first_wins.2 idfOne (fun _ => by norm_num [idfOne])
